import Mathlib

/-!
Shallow embedding of `json4e/base.py`, a builder of echarts JSON
configuration objects, together with proofs of its specification.

Python dictionaries are modelled as association lists (`Dict`) with
insertion-ordered, last-write-wins update semantics; Python values that can
appear in the produced JSON are modelled by the inductive type `JValue`.
Constructors that can raise (`_check_valid` failing) are modelled as
`Except ValidationError`-returning functions; the `json` properties are
pure functions, as in the source.  `Chart.add_component` returns the
post-call object state together with the raised error, if any, so that
"state unchanged on failure" is expressible.
-/

/-- A Python/JSON value as it appears in the configuration dictionaries. -/
inductive JValue where
  | null : JValue
  | bool : Bool → JValue
  | num : Int → JValue
  | str : String → JValue
  | arr : List JValue → JValue
  | obj : List (String × JValue) → JValue

/-- A Python dict with string keys, modelled as an insertion-ordered
association list. -/
abbrev Dict := List (String × JValue)

/-- `d[k]` lookup: the value bound to key `k` (first occurrence), if any. -/
def dictGet (d : Dict) (k : String) : Option JValue :=
  match d with
  | [] => none
  | p :: t => if p.1 == k then some p.2 else dictGet t k

/-- `d[k] = v` on a Python dict: replace the value in place if the key is
present (keys of a Python dict are unique), otherwise append the new
binding at the end. -/
def dictSet (d : Dict) (k : String) (v : JValue) : Dict :=
  match d with
  | [] => [(k, v)]
  | p :: t => if p.1 == k then (k, v) :: t else p :: dictSet t k v

/-- `d.update(e)` on Python dicts: set every binding of `e` into `d`, in
order, so that `e` wins on any key collision. -/
def dictUpdate (d e : Dict) : Dict :=
  e.foldl (fun acc p => dictSet acc p.1 p.2) d

/-- First-result choice on optional values (used to state lookup facts
about merged dicts). -/
def oor (a b : Option JValue) : Option JValue :=
  match a with
  | some v => some v
  | none => b

/-- The error raised by `_check_valid` (a `TypeError` in the source,
called ValidationError by the spec): it carries the offending item and the
allowed list. -/
structure ValidationError where
  item : String
  checklist : List String

/-- `_check_valid(item, checklist)`: succeed iff the item is a member of
the checklist, otherwise raise. -/
def _check_valid (item : String) (checklist : List String) :
    Except ValidationError Unit :=
  if item ∈ checklist then Except.ok () else Except.error ⟨item, checklist⟩

/-- `SUPPORTED_POS` module constant. -/
def SUPPORTED_POS : List String := ["top", "bottom", "left", "right"]

/-- The `Series` entity: fields in source assignment order. -/
structure Series where
  _type : String
  _name : JValue
  _data : JValue
  _optional_args : Dict

/-- `Series.DEFAULT_TYPES`. -/
def Series.DEFAULT_TYPES : List String :=
  ["line", "bar", "pie", "scatter", "effectScatter", "radar",
   "tree", "treemap", "sunburst", "boxplot", "candlestick",
   "heatmap", "map", "parallel", "lines", "graph", "sankey",
   "funnel", "gauge", "pictorialBar", "themeRiver", "custom"]

/-- `Series.__init__`: validates `assigned_type` against `DEFAULT_TYPES`,
then stores all fields unchanged. -/
def Series.init (assigned_type : String) (name data : JValue)
    (kwargs : Dict) : Except ValidationError Series :=
  match _check_valid assigned_type Series.DEFAULT_TYPES with
  | Except.error e => Except.error e
  | Except.ok _ => Except.ok ⟨assigned_type, name, data, kwargs⟩

/-- The base dict built by `Series.json` before merging optional args. -/
def Series.baseJson (s : Series) : Dict :=
  [("name", s._name), ("data", s._data), ("type", JValue.str s._type)]

/-- `Series.json`: base fields updated with the optional args. -/
def Series.json (s : Series) : Dict :=
  dictUpdate s.baseJson s._optional_args

/-- `Line.__init__`: a `Series` with the variant fixed to `"line"`. -/
def Line.init (name data : JValue) (kwargs : Dict) :
    Except ValidationError Series :=
  Series.init "line" name data kwargs

/-- `Bar.__init__`: a `Series` with the variant fixed to `"bar"`. -/
def Bar.init (name data : JValue) (kwargs : Dict) :
    Except ValidationError Series :=
  Series.init "bar" name data kwargs

/-- The `Axis` entity: fields in source assignment order. -/
structure Axis where
  _atype : String
  _pos : String
  _name : JValue
  _data : JValue
  _optional_args : Dict

/-- `Axis.SUPPORTED_TYPE`. -/
def Axis.SUPPORTED_TYPE : List String := ["category", "value", "time", "log"]

/-- `Axis.__init__`: validates `assigned_type` against `SUPPORTED_TYPE`;
the position is stored without validation. -/
def Axis.init (assigned_type : String) (name : JValue) (pos : String)
    (data : JValue) (kwargs : Dict) : Except ValidationError Axis :=
  match _check_valid assigned_type Axis.SUPPORTED_TYPE with
  | Except.error e => Except.error e
  | Except.ok _ => Except.ok ⟨assigned_type, pos, name, data, kwargs⟩

/-- `Axis.position()`. -/
def Axis.position (a : Axis) : String := a._pos

/-- `Axis.x_axis()`: true iff the position is `bottom` or `top`. -/
def Axis.x_axis (a : Axis) : Bool :=
  if a._pos = "bottom" ∨ a._pos = "top" then true else false

/-- `Axis.y_axis()`: the negation of `x_axis()`. -/
def Axis.y_axis (a : Axis) : Bool := !a.x_axis

/-- The base dict built by `Axis.json` before merging optional args. -/
def Axis.baseJson (a : Axis) : Dict :=
  [("name", a._name), ("type", JValue.str a._atype),
   ("data", a._data), ("position", JValue.str a._pos)]

/-- `Axis.json`: base fields updated with the optional args. -/
def Axis.json (a : Axis) : Dict :=
  dictUpdate a.baseJson a._optional_args

/-- The `Legend` entity: fields in source assignment order. -/
structure Legend where
  _data : JValue
  _orient : String
  _type : String
  _pos : JValue × JValue
  _optional_args : Dict

/-- `Legend.SUPPORTED_TYPE`. -/
def Legend.SUPPORTED_TYPE : List String := ["plain", "scroll"]

/-- `Legend.SUPPORTED_ORIENT`. -/
def Legend.SUPPORTED_ORIENT : List String := ["horizontal", "vertical"]

/-- `Legend.__init__`: stores data, validates `orient` against
`SUPPORTED_ORIENT`, then stores the remaining fields; `assigned_type` is
stored without validation. -/
def Legend.init (position : JValue × JValue) (data : JValue)
    (assigned_type orient : String) (kwargs : Dict) :
    Except ValidationError Legend :=
  match _check_valid orient Legend.SUPPORTED_ORIENT with
  | Except.error e => Except.error e
  | Except.ok _ => Except.ok ⟨data, orient, assigned_type, position, kwargs⟩

/-- The base dict built by `Legend.json` before merging optional args. -/
def Legend.baseJson (l : Legend) : Dict :=
  [("orient", JValue.str l._orient), ("data", l._data),
   ("x", l._pos.1), ("y", l._pos.2), ("type", JValue.str l._type)]

/-- `Legend.json`: base fields updated with the optional args. -/
def Legend.json (l : Legend) : Dict :=
  dictUpdate l.baseJson l._optional_args

/-- The `Tooltip` entity: fields in source assignment order. -/
structure Tooltip where
  _trigger : String
  _axis_pointertype : String
  _optional_args : Dict

/-- `Tooltip.TRIGGERS`. -/
def Tooltip.TRIGGERS : List String := ["axis", "item"]

/-- `Tooltip.AXISPOINTER_TYPES` (declared in the source but never used for
validation). -/
def Tooltip.AXISPOINTER_TYPES : List String := ["line", "shadow", "none", "cross"]

/-- `Tooltip.__init__`: validates `trigger` against `TRIGGERS`;
`axis_pointer_type` is stored without validation. -/
def Tooltip.init (trigger axis_pointer_type : String) (kwargs : Dict) :
    Except ValidationError Tooltip :=
  match _check_valid trigger Tooltip.TRIGGERS with
  | Except.error e => Except.error e
  | Except.ok _ => Except.ok ⟨trigger, axis_pointer_type, kwargs⟩

/-- The base dict built by `Tooltip.json` before merging optional args. -/
def Tooltip.baseJson (t : Tooltip) : Dict :=
  [("trigger", JValue.str t._trigger),
   ("axisPointer", JValue.obj [("type", JValue.str t._axis_pointertype)])]

/-- `Tooltip.json`: base fields updated with the optional args. -/
def Tooltip.json (t : Tooltip) : Dict :=
  dictUpdate t.baseJson t._optional_args

/-- The `_components` dict of a `Chart`, in its insertion order
(`legend`, `tooltip`, `series`, `toolbox`, `visualMap`), every slot
initially `None`.  The `toolbox` and `visualMap` slots are never assigned
by any method of the source, so their element type is left as a raw
`JValue` (the structure the hypothetical component would render to). -/
structure Components where
  legend : Option Legend
  tooltip : Option Tooltip
  series : Option Series
  toolbox : Option JValue
  visualMap : Option JValue

/-- The `Chart` entity.  The pair of axis lists exists iff `axis_enabled`
was truthy at construction (`__init__` creates `_x_axis`/`_y_axis` only in
that case), so both lists are held under a single `Option`: `axes = none`
models the attributes being absent. -/
structure Chart where
  _text : JValue
  _subtext : JValue
  axes : Option (List Axis × List Axis)
  _animation : Bool
  _series : List Series
  _optional_args : Dict
  components : Components

/-- `Chart._axis_enabled`: in the source a stored flag; here derived from
the presence of the axis lists, with which it coincides for every
constructed chart. -/
def Chart.axis_enabled (c : Chart) : Bool := c.axes.isSome

/-- `Chart.__init__`. -/
def Chart.init (text subtext : JValue) (axis_enabled animation : Bool)
    (kwargs : Dict) : Chart :=
  { _text := text
    _subtext := subtext
    axes := if axis_enabled then some ([], []) else none
    _animation := animation
    _series := []
    _optional_args := kwargs
    components := ⟨none, none, none, none, none⟩ }

/-- A value offered to `Chart.add_component`.  The source classifies by
`isinstance` against `Series`, `Legend`, `Tooltip`, `Axis`, in that order;
an arbitrary other object (the `else` branch) is modelled by `other`. -/
inductive Component where
  | series : Series → Component
  | legend : Legend → Component
  | tooltip : Tooltip → Component
  | axis : Axis → Component
  | other : Component

/-- The errors `Chart.add_component` can raise: `unrecognized` is the
explicit `TypeError` of the `else` branch; `attrError` is the
`AttributeError` from touching `_x_axis`/`_y_axis` when they were never
created (`axis_enabled` false). -/
inductive AddError where
  | unrecognized : AddError
  | attrError : AddError
deriving DecidableEq, Repr

/-- `Chart.add_component`: returns the object state after the call and the
raised error if any.  Series/legend/tooltip overwrite their slot; an axis
is appended to the horizontal list iff `x_axis()`, to the vertical list
otherwise; anything else raises, leaving the state unchanged. -/
def Chart.add_component (c : Chart) (comp : Component) :
    Chart × Option AddError :=
  match comp with
  | Component.series s =>
      ({ c with components := { c.components with series := some s } }, none)
  | Component.legend l =>
      ({ c with components := { c.components with legend := some l } }, none)
  | Component.tooltip t =>
      ({ c with components := { c.components with tooltip := some t } }, none)
  | Component.axis a =>
      match c.axes with
      | some (xs, ys) =>
          if a.x_axis then ({ c with axes := some (xs ++ [a], ys) }, none)
          else ({ c with axes := some (xs, ys ++ [a]) }, none)
      | none => (c, some AddError.attrError)
  | Component.other => (c, some AddError.unrecognized)

/-- The loop `for key, value in self._components.items(): ...` of
`Chart.json`: sets each non-`None` slot's structure under its key, in the
dict's insertion order. -/
def Chart.componentsFold (c : Chart) (d : Dict) : Dict :=
  let d1 := match c.components.legend with
    | some l => dictSet d "legend" (JValue.obj l.json)
    | none => d
  let d2 := match c.components.tooltip with
    | some t => dictSet d1 "tooltip" (JValue.obj t.json)
    | none => d1
  let d3 := match c.components.series with
    | some s => dictSet d2 "series" (JValue.obj s.json)
    | none => d2
  let d4 := match c.components.toolbox with
    | some v => dictSet d3 "toolbox" v
    | none => d3
  match c.components.visualMap with
  | some v => dictSet d4 "visualMap" v
  | none => d4

/-- `[...] or [{}]`: an empty list is falsy in Python, so it is replaced
by a one-element list holding an empty mapping. -/
def orEmptyObj (l : List JValue) : List JValue :=
  match l with
  | [] => [JValue.obj []]
  | _ => l

/-- The initial dict built by `Chart.json`: the title block and the
animation flag. -/
def Chart.titleJson (c : Chart) : Dict :=
  [("title", JValue.obj [("text", c._text), ("subtext", c._subtext)]),
   ("animation", JValue.bool c._animation)]

/-- The dict built by `Chart.json` before the final
`jsondict.update(self._optional_args)`: the title block, the held
components, and — when the axis lists exist — the `xAxis`/`yAxis` arrays,
an empty list being replaced by `[{}]`. -/
def Chart.baseJson (c : Chart) : Dict :=
  match c.axes with
  | some (xs, ys) =>
      dictSet
        (dictSet (c.componentsFold c.titleJson) "xAxis"
          (JValue.arr (orEmptyObj (xs.map (fun a => JValue.obj a.json)))))
        "yAxis" (JValue.arr (orEmptyObj (ys.map (fun a => JValue.obj a.json))))
  | none => c.componentsFold c.titleJson

/-- `Chart.json`: the base dict updated with the optional args, which win
on any collision. -/
def Chart.json (c : Chart) : Dict :=
  dictUpdate c.baseJson c._optional_args

/-- The charts reachable by constructing one and making any sequence of
`add_component` calls (including failing ones, which leave the object as
it was). -/
inductive Chart.Reachable : Chart → Prop where
  | init : ∀ (text subtext : JValue) (axis_enabled animation : Bool)
      (kwargs : Dict),
      Chart.Reachable (Chart.init text subtext axis_enabled animation kwargs)
  | step : ∀ (c : Chart) (comp : Component), Chart.Reachable c →
      Chart.Reachable (c.add_component comp).1

/-- Reading the `json` property of a `Series`: the returned value together
with the object state after the read (the source getter assigns nothing to
`self`). -/
def Series.json_call (s : Series) : Dict × Series := (s.json, s)

/-- Reading the `json` property of an `Axis` (value, post-read state). -/
def Axis.json_call (a : Axis) : Dict × Axis := (a.json, a)

/-- Reading the `json` property of a `Legend` (value, post-read state). -/
def Legend.json_call (l : Legend) : Dict × Legend := (l.json, l)

/-- Reading the `json` property of a `Tooltip` (value, post-read state). -/
def Tooltip.json_call (t : Tooltip) : Dict × Tooltip := (t.json, t)

/-- Reading the `json` property of a `Chart` (value, post-read state). -/
def Chart.json_call (c : Chart) : Dict × Chart := (c.json, c)

/-! ## Dictionary lemmas -/

theorem dictGet_dictSet_same (d : Dict) (k : String) (v : JValue) :
    dictGet (dictSet d k v) k = some v := by
  induction d with
  | nil => simp [dictSet, dictGet]
  | cons p t ih =>
    by_cases hp : (p.1 == k) = true
    · simp [dictSet, dictGet, hp]
    · simp only [dictSet, dictGet, hp, Bool.false_eq_true, if_false]
      exact ih

theorem dictGet_dictSet_other (d : Dict) (k k' : String) (v : JValue)
    (h : k' ≠ k) : dictGet (dictSet d k v) k' = dictGet d k' := by
  have hkk : (k == k') = false := by
    simp only [beq_eq_false_iff_ne, ne_eq]
    exact fun hh => h hh.symm
  induction d with
  | nil => simp [dictSet, dictGet, hkk]
  | cons p t ih =>
    by_cases hp : (p.1 == k) = true
    · have h1 : p.1 = k := by simpa using hp
      simp [dictGet, dictSet, h1, hkk]
    · simp only [dictSet, dictGet, hp, Bool.false_eq_true, if_false]
      by_cases hc : (p.1 == k') = true <;> simp [hc, ih]

theorem dictUpdate_cons (d : Dict) (p : String × JValue) (e : Dict) :
    dictUpdate d (p :: e) = dictUpdate (dictSet d p.1 p.2) e := rfl

theorem dictGet_dictUpdate_of_not_key (d e : Dict) (k : String)
    (h : ∀ p ∈ e, p.1 ≠ k) :
    dictGet (dictUpdate d e) k = dictGet d k := by
  induction e generalizing d with
  | nil => rfl
  | cons p t ih =>
    rw [dictUpdate_cons, ih _ (fun q hq => h q (List.mem_cons_of_mem p hq)),
        dictGet_dictSet_other]
    exact fun hh => h p (List.mem_cons_self p t) hh.symm

theorem dictGet_dictUpdate (d e : Dict) (k : String)
    (h : (e.map Prod.fst).Nodup) :
    dictGet (dictUpdate d e) k = oor (dictGet e k) (dictGet d k) := by
  induction e generalizing d with
  | nil => rfl
  | cons p t ih =>
    simp only [List.map_cons, List.nodup_cons] at h
    obtain ⟨hnot, hnd⟩ := h
    rw [dictUpdate_cons]
    by_cases hk : p.1 = k
    · have htk : ∀ q ∈ t, q.1 ≠ k := by
        intro q hq hqk
        exact hnot (by rw [hk, ← hqk]; exact List.mem_map_of_mem Prod.fst hq)
      rw [dictGet_dictUpdate_of_not_key _ _ _ htk, hk, dictGet_dictSet_same]
      simp [dictGet, oor, hk]
    · rw [ih _ hnd, dictGet_dictSet_other _ _ _ _ (fun hh => hk hh.symm)]
      have hget : dictGet (p :: t) k = dictGet t k := by
        simp only [dictGet]
        rw [if_neg (by simp [hk])]
      rw [hget]

theorem dictGet_eq_none_iff (d : Dict) (k : String) :
    dictGet d k = none ↔ ∀ p ∈ d, p.1 ≠ k := by
  induction d with
  | nil => simp [dictGet]
  | cons p t ih =>
    by_cases hp : (p.1 == k) = true
    · have h1 : p.1 = k := by simpa using hp
      simp [dictGet, hp, h1]
    · have h1 : ¬ p.1 = k := by simpa using hp
      simp [dictGet, hp, ih, h1]

theorem orEmptyObj_ne_nil (l : List JValue) : orEmptyObj l ≠ [] := by
  cases l <;> simp [orEmptyObj]

theorem componentsFold_get_series (c : Chart) (d : Dict) :
    dictGet (c.componentsFold d) "series" =
      (match c.components.series with
       | some s => some (JValue.obj s.json)
       | none => dictGet d "series") := by
  unfold Chart.componentsFold
  cases c.components.legend <;> cases c.components.tooltip <;>
    cases c.components.series <;> cases c.components.toolbox <;>
      cases c.components.visualMap <;>
      simp [dictGet_dictSet_same, dictGet_dictSet_other]

theorem componentsFold_get_toolbox (c : Chart) (d : Dict)
    (h : c.components.toolbox = none) :
    dictGet (c.componentsFold d) "toolbox" = dictGet d "toolbox" := by
  unfold Chart.componentsFold
  rw [h]
  cases c.components.legend <;> cases c.components.tooltip <;>
    cases c.components.series <;> cases c.components.visualMap <;>
      simp [dictGet_dictSet_same, dictGet_dictSet_other]

theorem componentsFold_get_visualMap (c : Chart) (d : Dict)
    (h : c.components.visualMap = none) :
    dictGet (c.componentsFold d) "visualMap" = dictGet d "visualMap" := by
  unfold Chart.componentsFold
  rw [h]
  cases c.components.legend <;> cases c.components.tooltip <;>
    cases c.components.series <;> cases c.components.toolbox <;>
      simp [dictGet_dictSet_same, dictGet_dictSet_other]

theorem dictGet_baseJson_of_ne (c : Chart) (k : String)
    (hx : k ≠ "xAxis") (hy : k ≠ "yAxis") :
    dictGet c.baseJson k = dictGet (c.componentsFold c.titleJson) k := by
  unfold Chart.baseJson
  cases hax : c.axes with
  | none => rfl
  | some p =>
    obtain ⟨xs, ys⟩ := p
    rw [dictGet_dictSet_other _ _ _ _ hy, dictGet_dictSet_other _ _ _ _ hx]

/-! ## Claims -/

/-- C1: for every entity with an enumerated field (Series variant, Axis
variant, Legend orient, Tooltip trigger), constructing with a value outside
the declared allowed set fails with the validation error naming the value
and the set, and constructing with any member of the allowed set succeeds,
storing the validated value unchanged. -/
theorem C1_enumerated_validation :
    (∀ (t : String) (n d : JValue) (kw : Dict),
      (Series.init t n d kw = Except.ok ⟨t, n, d, kw⟩ ↔
        t ∈ Series.DEFAULT_TYPES) ∧
      (Series.init t n d kw = Except.error ⟨t, Series.DEFAULT_TYPES⟩ ↔
        t ∉ Series.DEFAULT_TYPES)) ∧
    (∀ (t : String) (n : JValue) (pos : String) (d : JValue) (kw : Dict),
      (Axis.init t n pos d kw = Except.ok ⟨t, pos, n, d, kw⟩ ↔
        t ∈ Axis.SUPPORTED_TYPE) ∧
      (Axis.init t n pos d kw = Except.error ⟨t, Axis.SUPPORTED_TYPE⟩ ↔
        t ∉ Axis.SUPPORTED_TYPE)) ∧
    (∀ (pos : JValue × JValue) (d : JValue) (aty orient : String) (kw : Dict),
      (Legend.init pos d aty orient kw = Except.ok ⟨d, orient, aty, pos, kw⟩ ↔
        orient ∈ Legend.SUPPORTED_ORIENT) ∧
      (Legend.init pos d aty orient kw =
          Except.error ⟨orient, Legend.SUPPORTED_ORIENT⟩ ↔
        orient ∉ Legend.SUPPORTED_ORIENT)) ∧
    (∀ (tr apt : String) (kw : Dict),
      (Tooltip.init tr apt kw = Except.ok ⟨tr, apt, kw⟩ ↔
        tr ∈ Tooltip.TRIGGERS) ∧
      (Tooltip.init tr apt kw = Except.error ⟨tr, Tooltip.TRIGGERS⟩ ↔
        tr ∉ Tooltip.TRIGGERS)) := by
  refine ⟨?_, ?_, ?_, ?_⟩
  · intro t n d kw
    by_cases h : t ∈ Series.DEFAULT_TYPES <;>
      simp [Series.init, _check_valid, h]
  · intro t n pos d kw
    by_cases h : t ∈ Axis.SUPPORTED_TYPE <;>
      simp [Axis.init, _check_valid, h]
  · intro pos d aty orient kw
    by_cases h : orient ∈ Legend.SUPPORTED_ORIENT <;>
      simp [Legend.init, _check_valid, h]
  · intro tr apt kw
    by_cases h : tr ∈ Tooltip.TRIGGERS <;>
      simp [Tooltip.init, _check_valid, h]

/-- Witness for C1: the variant line is accepted with all fields stored
unchanged, and the variant circle is rejected with the validation error. -/
theorem C1_enumerated_validation_witness :
    ("line" ∈ Series.DEFAULT_TYPES) ∧
    Series.init "line" JValue.null JValue.null [] =
      Except.ok ⟨"line", JValue.null, JValue.null, []⟩ ∧
    ("circle" ∉ Series.DEFAULT_TYPES) ∧
    Series.init "circle" JValue.null JValue.null [] =
      Except.error ⟨"circle", Series.DEFAULT_TYPES⟩ :=
  ⟨by decide,
   (C1_enumerated_validation.1 "line" JValue.null JValue.null []).1.mpr
     (by decide),
   by decide,
   (C1_enumerated_validation.1 "circle" JValue.null JValue.null []).2.mpr
     (by decide)⟩

/-- C2: for every entity and every extra-option bag with distinct keys, a
lookup in the mapping returned by the structure operation gives the value
from the extra options when the key is bound there, and the value from the
entity's base fields otherwise — extra wins on every collision; for
`Chart` the base fields include title, animation, the component keys and
xAxis/yAxis. -/
theorem C2_extra_precedence :
    ∀ (k : String),
    (∀ s : Series, (s._optional_args.map Prod.fst).Nodup →
      dictGet s.json k =
        oor (dictGet s._optional_args k) (dictGet s.baseJson k)) ∧
    (∀ a : Axis, (a._optional_args.map Prod.fst).Nodup →
      dictGet a.json k =
        oor (dictGet a._optional_args k) (dictGet a.baseJson k)) ∧
    (∀ l : Legend, (l._optional_args.map Prod.fst).Nodup →
      dictGet l.json k =
        oor (dictGet l._optional_args k) (dictGet l.baseJson k)) ∧
    (∀ t : Tooltip, (t._optional_args.map Prod.fst).Nodup →
      dictGet t.json k =
        oor (dictGet t._optional_args k) (dictGet t.baseJson k)) ∧
    (∀ c : Chart, (c._optional_args.map Prod.fst).Nodup →
      dictGet c.json k =
        oor (dictGet c._optional_args k) (dictGet c.baseJson k)) :=
  fun k =>
    ⟨fun _ h => dictGet_dictUpdate _ _ k h,
     fun _ h => dictGet_dictUpdate _ _ k h,
     fun _ h => dictGet_dictUpdate _ _ k h,
     fun _ h => dictGet_dictUpdate _ _ k h,
     fun _ h => dictGet_dictUpdate _ _ k h⟩

/-- Witness for C2: a series built with variant line, name A and extra
binding name to B has a structure whose name is B, and the lookup equation
holds at that input. -/
theorem C2_extra_precedence_witness :
    (([(("name" : String), JValue.str "B")].map Prod.fst).Nodup ∧
      dictGet (Series.mk "line" (JValue.str "A") JValue.null
        [("name", JValue.str "B")]).json "name" =
        oor (dictGet [("name", JValue.str "B")] "name")
          (dictGet (Series.mk "line" (JValue.str "A") JValue.null
            [("name", JValue.str "B")]).baseJson "name")) ∧
    dictGet (Series.mk "line" (JValue.str "A") JValue.null
      [("name", JValue.str "B")]).json "name" = some (JValue.str "B") :=
  ⟨⟨by simp, (C2_extra_precedence "name").1 _ (by simp)⟩, rfl⟩

/-- C3: an axis is horizontal iff its position is top or bottom, vertical
is always the negation of horizontal, and any position outside the four
declared positions is classified as vertical. -/
theorem C3_axis_orientation :
    ∀ a : Axis,
      (a.x_axis = true ↔ a._pos = "top" ∨ a._pos = "bottom") ∧
      a.y_axis = !a.x_axis ∧
      (a._pos ∉ SUPPORTED_POS → a.y_axis = true) := by
  intro a
  refine ⟨?_, rfl, ?_⟩
  · unfold Axis.x_axis
    split
    case isTrue h => exact ⟨fun _ => h.elim Or.inr Or.inl, fun _ => rfl⟩
    case isFalse h =>
      exact ⟨fun hh => absurd hh (by simp),
        fun hh => absurd (hh.elim Or.inr Or.inl) h⟩
  · intro h
    have hb : a._pos ≠ "bottom" := fun hh => h (by rw [hh]; decide)
    have ht : a._pos ≠ "top" := fun hh => h (by rw [hh]; decide)
    simp [Axis.y_axis, Axis.x_axis, hb, ht]

/-- Witness for C3: the unrecognized position diagonal is classified as
vertical. -/
theorem C3_axis_orientation_witness :
    ("diagonal" ∉ SUPPORTED_POS) ∧
    (Axis.mk "value" "diagonal" JValue.null JValue.null []).y_axis = true :=
  ⟨by decide, (C3_axis_orientation
    (Axis.mk "value" "diagonal" JValue.null JValue.null [])).2.2 (by decide)⟩

/-- C4 counterexample: a chart constructed with axisEnabled true, no axis
accepted, but with the extra option binding xAxis to the empty array, has
a structure whose xAxis is the empty array — not `[{}]`, and an empty
array — because the final extra merge overwrites the xAxis default. -/
theorem C4_counterexample :
    dictGet (Chart.init (JValue.str "t") (JValue.str "s") true true
      [("xAxis", JValue.arr [])]).json "xAxis" = some (JValue.arr []) ∧
    JValue.arr [] ≠ JValue.arr [JValue.obj []] :=
  ⟨rfl, by simp⟩

/-- C4 (amended: the guarantee holds provided the caller's extra options
bind neither xAxis nor yAxis, since the final extra merge overrides those
keys): a chart constructed with axisEnabled true into which no axis has
been accepted has structure xAxis = `[{}]` and yAxis = `[{}]`; more
generally, whenever the axis lists exist, the xAxis and yAxis keys are
present and hold non-empty arrays. -/
theorem C4_axis_defaults :
    (∀ (text subtext : JValue) (anim : Bool) (kw : Dict),
      dictGet kw "xAxis" = none → dictGet kw "yAxis" = none →
      dictGet (Chart.init text subtext true anim kw).json "xAxis" =
          some (JValue.arr [JValue.obj []]) ∧
      dictGet (Chart.init text subtext true anim kw).json "yAxis" =
          some (JValue.arr [JValue.obj []])) ∧
    (∀ (c : Chart) (xs ys : List Axis), c.axes = some (xs, ys) →
      dictGet c._optional_args "xAxis" = none →
      dictGet c._optional_args "yAxis" = none →
      (∃ l : List JValue,
        dictGet c.json "xAxis" = some (JValue.arr l) ∧ l ≠ []) ∧
      (∃ l : List JValue,
        dictGet c.json "yAxis" = some (JValue.arr l) ∧ l ≠ [])) := by
  constructor
  · intro text subtext anim kw hx hy
    have hbase : (Chart.init text subtext true anim kw).baseJson =
        dictSet (dictSet
          [("title", JValue.obj [("text", text), ("subtext", subtext)]),
           ("animation", JValue.bool anim)]
          "xAxis" (JValue.arr [JValue.obj []]))
          "yAxis" (JValue.arr [JValue.obj []]) := rfl
    constructor
    · have h1 : dictGet (Chart.init text subtext true anim kw).json "xAxis" =
          dictGet (Chart.init text subtext true anim kw).baseJson "xAxis" :=
        dictGet_dictUpdate_of_not_key _ _ _ ((dictGet_eq_none_iff _ _).mp hx)
      rw [h1, hbase, dictGet_dictSet_other _ _ _ _ (by simp),
        dictGet_dictSet_same]
    · have h1 : dictGet (Chart.init text subtext true anim kw).json "yAxis" =
          dictGet (Chart.init text subtext true anim kw).baseJson "yAxis" :=
        dictGet_dictUpdate_of_not_key _ _ _ ((dictGet_eq_none_iff _ _).mp hy)
      rw [h1, hbase, dictGet_dictSet_same]
  · intro c xs ys hax hx hy
    have hbase : c.baseJson =
        dictSet (dictSet (c.componentsFold c.titleJson) "xAxis"
          (JValue.arr (orEmptyObj (xs.map (fun a => JValue.obj a.json)))))
          "yAxis" (JValue.arr (orEmptyObj (ys.map (fun a => JValue.obj a.json)))) := by
      unfold Chart.baseJson
      rw [hax]
    constructor
    · refine ⟨orEmptyObj (xs.map (fun a => JValue.obj a.json)), ?_,
        orEmptyObj_ne_nil _⟩
      have h1 : dictGet c.json "xAxis" = dictGet c.baseJson "xAxis" :=
        dictGet_dictUpdate_of_not_key _ _ _ ((dictGet_eq_none_iff _ _).mp hx)
      rw [h1, hbase, dictGet_dictSet_other _ _ _ _ (by simp),
        dictGet_dictSet_same]
    · refine ⟨orEmptyObj (ys.map (fun a => JValue.obj a.json)), ?_,
        orEmptyObj_ne_nil _⟩
      have h1 : dictGet c.json "yAxis" = dictGet c.baseJson "yAxis" :=
        dictGet_dictUpdate_of_not_key _ _ _ ((dictGet_eq_none_iff _ _).mp hy)
      rw [h1, hbase, dictGet_dictSet_same]

/-- Witness for C4: the defaults hold for a concrete chart with no
colliding extras. -/
theorem C4_axis_defaults_witness :
    dictGet ([] : Dict) "xAxis" = none ∧
    dictGet (Chart.init (JValue.str "t") (JValue.str "s") true true []).json
      "xAxis" = some (JValue.arr [JValue.obj []]) ∧
    dictGet (Chart.init (JValue.str "t") (JValue.str "s") true true []).json
      "yAxis" = some (JValue.arr [JValue.obj []]) :=
  ⟨rfl, (C4_axis_defaults.1 (JValue.str "t") (JValue.str "s") true [] rfl rfl).1,
    (C4_axis_defaults.1 (JValue.str "t") (JValue.str "s") true [] rfl rfl).2⟩

/-- C5: the component classification — a series-capable component is
slotted into series, a legend-capable one into legend, a tooltip-capable
one into tooltip, an axis-capable one is appended to the horizontal or
vertical list per its orientation (the union of component kinds is closed
and disjoint, so the source's priority order reduces to this per-kind
dispatch); a component of none of these kinds makes the call fail with the
unrecognized-component error and leaves the chart state unchanged. -/
theorem C5_classification :
    ∀ (c : Chart),
      (∀ s : Series, c.add_component (Component.series s) =
        ({ c with components := { c.components with series := some s } },
          none)) ∧
      (∀ l : Legend, c.add_component (Component.legend l) =
        ({ c with components := { c.components with legend := some l } },
          none)) ∧
      (∀ t : Tooltip, c.add_component (Component.tooltip t) =
        ({ c with components := { c.components with tooltip := some t } },
          none)) ∧
      (∀ (a : Axis) (xs ys : List Axis), c.axes = some (xs, ys) →
        c.add_component (Component.axis a) =
          ((if a.x_axis then { c with axes := some (xs ++ [a], ys) }
            else { c with axes := some (xs, ys ++ [a]) }), none)) ∧
      c.add_component Component.other = (c, some AddError.unrecognized) := by
  intro c
  refine ⟨fun s => rfl, fun l => rfl, fun t => rfl, ?_, rfl⟩
  intro a xs ys hax
  simp only [Chart.add_component]
  rw [hax]
  cases hxa : a.x_axis <;> simp

/-- Witness for C5: a vertical axis accepted into a fresh axis-enabled
chart lands in the vertical list with no error. -/
theorem C5_classification_witness :
    (Chart.init JValue.null JValue.null true true []).axes = some ([], []) ∧
    (Chart.init JValue.null JValue.null true true []).add_component
        (Component.axis (Axis.mk "value" "left" JValue.null JValue.null [])) =
      ((if (Axis.mk "value" "left" JValue.null JValue.null []).x_axis then
          { Chart.init JValue.null JValue.null true true [] with
            axes := some ([] ++ [Axis.mk "value" "left" JValue.null JValue.null []], []) }
        else
          { Chart.init JValue.null JValue.null true true [] with
            axes := some ([], [] ++ [Axis.mk "value" "left" JValue.null JValue.null []]) }),
        none) :=
  ⟨rfl, (C5_classification
    (Chart.init JValue.null JValue.null true true [])).2.2.2.1 _ [] [] rfl⟩

/-- C6: accepting a second series-capable component after a first raises
no error and silently overwrites the held series, and — provided the
caller's extra options do not bind the series key themselves — the
structure afterwards holds exactly the second series' structure under the
series key. -/
theorem C6_series_overwrite :
    ∀ (c : Chart) (s1 s2 : Series),
      (((c.add_component (Component.series s1)).1.add_component
        (Component.series s2)).2 = none) ∧
      (((c.add_component (Component.series s1)).1.add_component
        (Component.series s2)).1.components.series = some s2) ∧
      (dictGet c._optional_args "series" = none →
        dictGet (((c.add_component (Component.series s1)).1.add_component
          (Component.series s2)).1.json) "series" =
          some (JValue.obj s2.json)) := by
  intro c s1 s2
  refine ⟨rfl, rfl, ?_⟩
  intro h
  have h1 : dictGet (((c.add_component (Component.series s1)).1.add_component
      (Component.series s2)).1.json) "series" =
      dictGet (((c.add_component (Component.series s1)).1.add_component
        (Component.series s2)).1.baseJson) "series" :=
    dictGet_dictUpdate_of_not_key _ _ _ ((dictGet_eq_none_iff _ _).mp h)
  rw [h1, dictGet_baseJson_of_ne _ _ (by simp) (by simp),
    componentsFold_get_series]
  rfl

/-- Witness for C6: after accepting a line series named A and then a bar
series named B, the structure's series key is the bar series' structure. -/
theorem C6_series_overwrite_witness :
    dictGet ([] : Dict) "series" = none ∧
    dictGet ((((Chart.init JValue.null JValue.null false true
        []).add_component
        (Component.series (Series.mk "line" (JValue.str "A") JValue.null []))).1.add_component
        (Component.series (Series.mk "bar" (JValue.str "B") JValue.null []))).1.json)
      "series" =
      some (JValue.obj (Series.mk "bar" (JValue.str "B") JValue.null []).json) :=
  ⟨rfl, (C6_series_overwrite (Chart.init JValue.null JValue.null false true [])
    (Series.mk "line" (JValue.str "A") JValue.null [])
    (Series.mk "bar" (JValue.str "B") JValue.null [])).2.2 rfl⟩

/-- C7: Tooltip construction accepts any axisPointerType value and Legend
construction accepts any variant value without raising, storing the value
unchanged, even though the enumerated sets AXISPOINTER_TYPES and
SUPPORTED_TYPE are declared in the source. -/
theorem C7_unvalidated_fields :
    Tooltip.AXISPOINTER_TYPES = ["line", "shadow", "none", "cross"] ∧
    Legend.SUPPORTED_TYPE = ["plain", "scroll"] ∧
    (∀ (tr apt : String) (kw : Dict), tr ∈ Tooltip.TRIGGERS →
      Tooltip.init tr apt kw = Except.ok ⟨tr, apt, kw⟩) ∧
    (∀ (pos : JValue × JValue) (d : JValue) (aty orient : String) (kw : Dict),
      orient ∈ Legend.SUPPORTED_ORIENT →
      Legend.init pos d aty orient kw = Except.ok ⟨d, orient, aty, pos, kw⟩) := by
  refine ⟨rfl, rfl, ?_, ?_⟩
  · intro tr apt kw h
    simp [Tooltip.init, _check_valid, h]
  · intro pos d aty orient kw h
    simp [Legend.init, _check_valid, h]

/-- Witness for C7: a tooltip with axisPointerType bogus and a legend with
variant fancy — both outside their declared sets — are constructed without
error, the values stored unchanged. -/
theorem C7_unvalidated_fields_witness :
    ("bogus" ∉ Tooltip.AXISPOINTER_TYPES) ∧
    ("axis" ∈ Tooltip.TRIGGERS) ∧
    Tooltip.init "axis" "bogus" [] = Except.ok ⟨"axis", "bogus", []⟩ ∧
    ("fancy" ∉ Legend.SUPPORTED_TYPE) ∧
    ("horizontal" ∈ Legend.SUPPORTED_ORIENT) ∧
    Legend.init (JValue.num 1, JValue.num 2) JValue.null "fancy" "horizontal"
      [] = Except.ok
        ⟨JValue.null, "horizontal", "fancy", (JValue.num 1, JValue.num 2), []⟩ :=
  ⟨by decide, by decide,
    C7_unvalidated_fields.2.2.1 "axis" "bogus" [] (by decide),
    by decide, by decide,
    C7_unvalidated_fields.2.2.2 (JValue.num 1, JValue.num 2) JValue.null
      "fancy" "horizontal" [] (by decide)⟩

/-- C8: for every entity, reading the structure property leaves the entity
unchanged, and two successive reads on the same unmutated entity return
identical mappings. -/
theorem C8_structure_pure :
    ∀ (s : Series) (a : Axis) (l : Legend) (t : Tooltip) (c : Chart),
      ((Series.json_call s).2 = s ∧
        (Series.json_call (Series.json_call s).2).1 = (Series.json_call s).1) ∧
      ((Axis.json_call a).2 = a ∧
        (Axis.json_call (Axis.json_call a).2).1 = (Axis.json_call a).1) ∧
      ((Legend.json_call l).2 = l ∧
        (Legend.json_call (Legend.json_call l).2).1 = (Legend.json_call l).1) ∧
      ((Tooltip.json_call t).2 = t ∧
        (Tooltip.json_call (Tooltip.json_call t).2).1 = (Tooltip.json_call t).1) ∧
      ((Chart.json_call c).2 = c ∧
        (Chart.json_call (Chart.json_call c).2).1 = (Chart.json_call c).1) :=
  fun _ _ _ _ _ => ⟨⟨rfl, rfl⟩, ⟨rfl, rfl⟩, ⟨rfl, rfl⟩, ⟨rfl, rfl⟩, ⟨rfl, rfl⟩⟩

/-- C9: a chart constructed with axisEnabled false has no axis lists, and
accepting any axis-capable component into a chart without axis lists fails
with the attribute error — distinct from the unrecognized-component error —
leaving the chart state unchanged (the axis is not stored). -/
theorem C9_axis_disabled_failure :
    (∀ (text subtext : JValue) (anim : Bool) (kw : Dict),
      (Chart.init text subtext false anim kw).axes = none) ∧
    (∀ (c : Chart) (a : Axis), c.axes = none →
      c.add_component (Component.axis a) = (c, some AddError.attrError)) ∧
    AddError.attrError ≠ AddError.unrecognized := by
  refine ⟨fun text subtext anim kw => rfl, ?_, by decide⟩
  intro c a hax
  simp only [Chart.add_component]
  rw [hax]

/-- Witness for C9: adding a left axis to a fresh chart with axisEnabled
false yields the attribute error and the unchanged chart. -/
theorem C9_axis_disabled_failure_witness :
    (Chart.init JValue.null JValue.null false true []).axes = none ∧
    (Chart.init JValue.null JValue.null false true []).add_component
        (Component.axis (Axis.mk "value" "left" JValue.null JValue.null [])) =
      (Chart.init JValue.null JValue.null false true [],
        some AddError.attrError) :=
  ⟨rfl, (C9_axis_disabled_failure).2.1
    (Chart.init JValue.null JValue.null false true [])
    (Axis.mk "value" "left" JValue.null JValue.null []) rfl⟩

/-- C10: on every chart reachable by construction followed by any sequence
of add-component calls, the toolbox and visualMap slots are still empty,
and consequently the structure has no toolbox or visualMap key unless the
caller's extra options supply one. -/
theorem C10_toolbox_visualMap_empty :
    ∀ (c : Chart), c.Reachable →
      c.components.toolbox = none ∧ c.components.visualMap = none ∧
      (dictGet c._optional_args "toolbox" = none →
        dictGet c.json "toolbox" = none) ∧
      (dictGet c._optional_args "visualMap" = none →
        dictGet c.json "visualMap" = none) := by
  intro c hc
  have hslots : c.components.toolbox = none ∧ c.components.visualMap = none := by
    induction hc with
    | init text subtext ax anim kw => exact ⟨rfl, rfl⟩
    | step c0 comp hc0 ih =>
      cases comp with
      | series s => exact ih
      | legend l => exact ih
      | tooltip t => exact ih
      | axis a =>
        cases hax : c0.axes with
        | none => simpa [Chart.add_component, hax] using ih
        | some p =>
          obtain ⟨xs, ys⟩ := p
          cases hxa : a.x_axis <;>
            simpa [Chart.add_component, hax, hxa] using ih
      | other => exact ih
  refine ⟨hslots.1, hslots.2, ?_, ?_⟩
  · intro h
    have h1 : dictGet c.json "toolbox" = dictGet c.baseJson "toolbox" :=
      dictGet_dictUpdate_of_not_key _ _ _ ((dictGet_eq_none_iff _ _).mp h)
    rw [h1, dictGet_baseJson_of_ne _ _ (by simp) (by simp),
      componentsFold_get_toolbox _ _ hslots.1]
    simp [Chart.titleJson, dictGet]
  · intro h
    have h1 : dictGet c.json "visualMap" = dictGet c.baseJson "visualMap" :=
      dictGet_dictUpdate_of_not_key _ _ _ ((dictGet_eq_none_iff _ _).mp h)
    rw [h1, dictGet_baseJson_of_ne _ _ (by simp) (by simp),
      componentsFold_get_visualMap _ _ hslots.2]
    simp [Chart.titleJson, dictGet]

/-- Witness for C10: a freshly constructed chart, after accepting a
tooltip, has no toolbox or visualMap key in its structure. -/
theorem C10_toolbox_visualMap_empty_witness :
    dictGet ([] : Dict) "toolbox" = none ∧
    dictGet (((Chart.init JValue.null JValue.null true true
        []).add_component (Component.tooltip
        (Tooltip.mk "axis" "line" []))).1.json) "toolbox" = none :=
  ⟨rfl, (C10_toolbox_visualMap_empty _
    (Chart.Reachable.step (Chart.init JValue.null JValue.null true true [])
      (Component.tooltip (Tooltip.mk "axis" "line" []))
      (Chart.Reachable.init JValue.null JValue.null true true []))).2.2.1 rfl⟩
